import Mathlib

/-!
Shallow embedding of `xdem/dem.py` (vertical-reference handling for DEM
rasters) and proofs about its behaviour.

Modelling conventions:
- Python `None` vs. string arguments become `Option String`; `isinstance(x, str)`
  is `x = some s` (note that the empty string *is* a string for `isinstance`).
- Raised exceptions are modelled by returning the state at the moment of the
  raise together with `some e : Option PyError`; a normal return carries `none`.
  Each branch performs its attribute assignments in the order of the source, so
  the returned state on an error is exactly the state the Python object is left
  in when the exception propagates.
- `os.path.exists(os.path.join(pyproj.datadir.get_data_dir(), g))` is modelled
  by an environment function `fileExists : String → Bool` applied to `g`.
  For `g = ""`, `os.path.join` produces the data directory itself (with a
  trailing separator), so `fileExists ""` models the existence of the data
  directory.
- Error messages that interpolate runtime values (the pyproj data directory)
  are modelled as fixed strings; no claim depends on the interpolated part.
- `pyproj` CRS objects are modelled by a `CRS` record carrying an identifying
  WKT string and an optional EPSG code (`crs.to_epsg()` returning `None` in
  Python becomes `epsg = none`); compound CRS values built by the code are the
  inductive `CCRS`.
- External effects (the pyproj transformer in `to_vref`, including
  `Transformer.from_crs` and the `.transform` call, together with the pixel
  centre coordinates it consumes) are an oracle
  `transform : Option CCRS → Option CCRS → List Int → Except String (List Int)`;
  a `.error` models any exception raised by pyproj during the transform step
  (pyproj raises its own error kinds there, never `ValueError`, hence the
  separate `projError` constructor).
- Elevation data `self.data` is a `List Int` (its contents are opaque to the
  code under study; only "changed vs. unchanged" matters to the claims).
-/

/-- Error values raised by the embedded code. `valueError` covers Python
`ValueError`, `typeError` the `TypeError` from `int(None)` when a CRS has no
EPSG code, and `projError` wraps failures of the external pyproj transformer. -/
inductive PyError where
  | valueError (msg : String)
  | typeError (msg : String)
  | projError (msg : String)
deriving DecidableEq, Repr

/-- Horizontal CRS: an identifying WKT string plus the result of
`crs.to_epsg()` (`none` when the CRS has no resolvable EPSG code). -/
structure CRS where
  wkt : String
  epsg : Option Int
deriving DecidableEq, Repr

/-- Compound CRS values produced by `DEM.ccrs`: either the horizontal CRS
unchanged (`pyproj.CRS(crs)` in the WGS84 branch) or the compound CRS built by
`pyproj.Proj(init="EPSG:" + str(int(crs.to_epsg())), geoidgrids=grid).crs`. -/
inductive CCRS where
  | horizontal (c : CRS)
  | compound (epsg : Int) (grid : String)
deriving DecidableEq, Repr

/-- The state of a `DEM` object relevant to the claims: the three
vertical-reference attributes (`vref`, `vref_grid`, `_ccrs`), the horizontal
CRS, the elevation data, and the attributes inherited from `SatelliteImage`
that the constructor consults (`product`, `indexes`). -/
structure DEMState where
  vref : Option String
  vref_grid : Option String
  ccrs_cache : Option CCRS
  crs : CRS
  data : List Int
  product : Option String
  indexes : Option (List Nat)
deriving DecidableEq, Repr

/-- Embeds `parse_vref_from_product` from `xdem/dem.py`: fixed lookup table
from product name to vertical reference name. -/
def parse_vref_from_product (product : String) : Option String :=
  if product ∈ ["ArcticDEM/REMA", "TDM1", "NASADEM-HGTS"] then
    some "WGS84"
  else if product ∈ ["AW3D30", "SRTMv4.1", "SRTMGL1", "ASTGTM2", "NASADEM-HGT"] then
    some "EGM96"
  else if product ∈ ["COPDEM"] then
    some "EGM08"
  else
    none

/-- Message of the `ValueError` raised by `set_vref` when an unrecognized grid
is not found. The source interpolates `pyproj.datadir.get_data_dir()` after
"Grid not found in "; the interpolated directory is modelled as fixed text. -/
def grid_not_found_msg : String :=
  "Grid not found in the pyproj data directory: check if proj-data is " ++
  "installed via conda-forge, the pyproj.datadir, and that you are using a " ++
  "grid available at https://github.com/OSGeo/PROJ-data"

/-- Message of the `ValueError` raised by `set_vref` for an unrecognized
vertical reference name. -/
def invalid_name_msg : String :=
  "Vertical reference name must be either \"WGS84\", \"EGM96\" or \"EGM08\". " ++
  "Otherwise, provide a geoid grid from PROJ DATA: https://github.com/OSGeo/PROJ-data"

/-- Message of the `ValueError` raised by `set_vref` when neither argument is
a string. -/
def no_arg_msg : String :=
  "Vertical reference name or vertical grid must be a string"

/-- Message of the `ValueError` raised by `to_vref` when no vertical reference
is set on the DEM. -/
def no_vref_msg : String :=
  "The current DEM has not vertical reference: need to set one before " ++
  "attempting a conversion towards another vertical reference."

/-- Message of the `ValueError` raised by `DEM.__init__` on a multi-band
raster. -/
def multiband_msg : String :=
  "DEM rasters should be composed of one band only"

/-- Embeds `DEM.set_vref`. The first component of the result is the object
state when the call returns or when the exception propagates; the second is
`some e` exactly when the call raises. The branch structure and the order of
the attribute assignments mirror the source (the `print` notice emitted when
both a name and a grid are supplied is a pure side effect and is not
modelled). `fileExists g` models
`os.path.exists(os.path.join(pyproj.datadir.get_data_dir(), g))`. -/
def set_vref (st : DEMState) (vref_name vref_grid : Option String)
    (fileExists : String → Bool) : DEMState × Option PyError :=
  match vref_grid with
  | some g =>
      if g = "us_nga_egm08_25.tif" then
        ({ st with vref := some "EGM08", vref_grid := some g }, none)
      else if g = "us_nga_egm96_15.tif" then
        ({ st with vref := some "EGM96", vref_grid := some g }, none)
      else if fileExists g then
        ({ st with vref := some ("Unknown vertical reference name from: " ++ g),
                   vref_grid := some g }, none)
      else
        (st, some (.valueError grid_not_found_msg))
  | none =>
      match vref_name with
      | some n =>
          if n = "WGS84" then
            ({ st with vref_grid := none, vref := some "WGS84" }, none)
          else if n = "EGM08" then
            ({ st with vref_grid := some "us_nga_egm08_25.tif", vref := some "EGM08" }, none)
          else if n = "EGM96" then
            ({ st with vref_grid := some "us_nga_egm96_15.tif", vref := some "EGM96" }, none)
          else
            (st, some (.valueError invalid_name_msg))
      | none => (st, some (.valueError no_arg_msg))

/-- The value computed by the `DEM.ccrs` property. The proj-version branch at
the top of the property only selects how the horizontal CRS is obtained (from
the object or via a gdalinfo subprocess); both paths yield the raster's
horizontal CRS, modelled as `st.crs`. In the grid branch the source computes
`int(crs.to_epsg())`, which raises `TypeError` when `to_epsg()` returns
`None`. -/
def ccrs_compute (st : DEMState) : Except PyError (Option CCRS) :=
  if st.vref = some "WGS84" then
    .ok (some (.horizontal st.crs))
  else
    match st.vref_grid with
    | some g =>
        match st.crs.epsg with
        | some e => .ok (some (.compound e g))
        | none => .error (.typeError "int() argument cannot be NoneType")
    | none => .ok none

/-- Embeds the `DEM.ccrs` property including its side effect: on success the
computed value is stored in `self._ccrs` and returned; on the `TypeError` path
the exception is raised before the assignment, leaving the cache unchanged. -/
def ccrs (st : DEMState) : Except PyError (Option CCRS × DEMState) :=
  match ccrs_compute st with
  | .ok v => .ok (v, { st with ccrs_cache := v })
  | .error e => .error e

/-- Embeds `DEM.to_vref`. `vref_name` is a plain string (its Python default is
`"EGM96"`); `transform` is the external-transformer oracle covering
`Transformer.from_crs` plus the `.transform` call on the pixel-centre
coordinates. Each intermediate state is threaded exactly as the attribute
mutations happen in the source: the precondition check first, then the `ccrs`
access (which writes the cache), then `set_vref`, then the destination `ccrs`
access, then the transform whose result overwrites `self.data`. -/
def to_vref (st : DEMState) (vref_name : String) (vref_grid : Option String)
    (fileExists : String → Bool)
    (transform : Option CCRS → Option CCRS → List Int → Except String (List Int)) :
    DEMState × Option PyError :=
  if st.vref = none ∧ st.vref_grid = none then
    (st, some (.valueError no_vref_msg))
  else
    match ccrs st with
    | .error e => (st, some e)
    | .ok (ccrs_init, st1) =>
        match set_vref st1 (some vref_name) vref_grid fileExists with
        | (st2, some e) => (st2, some e)
        | (st2, none) =>
            match ccrs st2 with
            | .error e => (st2, some e)
            | .ok (ccrs_dest, st3) =>
                match transform ccrs_init ccrs_dest st3.data with
                | .error msg => (st3, some (.projError msg))
                | .ok zz => ({ st3 with data := zz }, none)

/-- The attributes of a freshly loaded raster as delivered by the external
`SatelliteImage` constructor: pixel data, horizontal CRS, the product name
parsed from metadata (or `None`), and `self.indexes` (band indexes, `None`
when the data was not loaded through the Raster class). -/
structure LoadedRaster where
  data : List Int
  crs : CRS
  product : Option String
  indexes : Option (List Nat)
deriving DecidableEq, Repr

/-- Embeds `DEM.__parse_vref_from_fn`: pulls a vertical reference from the
product name; the only mutation happens when the product resolves and the user
supplied no `vref` (the other branches only print). -/
def parse_vref_from_fn (st : DEMState) : DEMState :=
  match st.product with
  | none => st
  | some p =>
      match parse_vref_from_product p, st.vref with
      | some v, none => { st with vref := some v }
      | _, _ => st

/-- The test `self.indexes is not None and len(self.indexes) > 1` from
`DEM.__init__`. -/
def multiband (indexes : Option (List Nat)) : Bool :=
  match indexes with
  | some idx => decide (1 < idx.length)
  | none => false

/-- Embeds the non-aliased path of `DEM.__init__` after the external
`SatelliteImage` load succeeded (the DEM-aliasing early return and the
external load itself are outside the embedded state): the single-band check,
the initialization of the three vertical-reference attributes from user input,
and the product-name inference step. -/
def DEM_init (loaded : LoadedRaster) (vref_name vref_grid : Option String) :
    Except PyError DEMState :=
  if multiband loaded.indexes then
    .error (.valueError multiband_msg)
  else
    .ok (parse_vref_from_fn
      { vref := vref_name
        vref_grid := vref_grid
        ccrs_cache := none
        crs := loaded.crs
        data := loaded.data
        product := loaded.product
        indexes := loaded.indexes })

/-- A sample DEM state used by witnesses and counterexamples. -/
def sample_st : DEMState :=
  { vref := some "WGS84"
    vref_grid := none
    ccrs_cache := none
    crs := { wkt := "EPSG:4326", epsg := some 4326 }
    data := [10, 20, 30]
    product := none
    indexes := some [1] }

/-- C1: `parse_vref_from_product` returns `"WGS84"` exactly on
`{ArcticDEM/REMA, TDM1, NASADEM-HGTS}`, `"EGM96"` exactly on
`{AW3D30, SRTMv4.1, SRTMGL1, ASTGTM2, NASADEM-HGT}`, `"EGM08"` exactly on
`COPDEM`, and `none` for every other input (being a total Lean function, it
has no failure mode). -/
theorem parse_vref_from_product_table (p : String) :
    (parse_vref_from_product p = some "WGS84" ↔
      p ∈ ["ArcticDEM/REMA", "TDM1", "NASADEM-HGTS"]) ∧
    (parse_vref_from_product p = some "EGM96" ↔
      p ∈ ["AW3D30", "SRTMv4.1", "SRTMGL1", "ASTGTM2", "NASADEM-HGT"]) ∧
    (parse_vref_from_product p = some "EGM08" ↔ p = "COPDEM") ∧
    (parse_vref_from_product p = none ↔
      (p ∉ ["ArcticDEM/REMA", "TDM1", "NASADEM-HGTS"] ∧
       p ∉ ["AW3D30", "SRTMv4.1", "SRTMGL1", "ASTGTM2", "NASADEM-HGT"] ∧
       p ≠ "COPDEM")) := by
  unfold parse_vref_from_product
  split_ifs with h1 h2 h3
  · simp only [List.mem_cons, List.not_mem_nil, or_false] at h1
    rcases h1 with rfl | rfl | rfl <;> decide
  · simp only [List.mem_cons, List.not_mem_nil, or_false] at h2
    rcases h2 with rfl | rfl | rfl | rfl | rfl <;> decide
  · simp only [List.mem_singleton] at h3
    subst h3; decide
  · simp only [List.mem_singleton] at h3
    exact ⟨by simp [h1], by simp [h2], by simp [h3], by simp [h1, h2, h3]⟩

/-- C2: when `vref_grid` is a string the grid branch is taken regardless of
`vref_name`: the two well-known grid filenames map to `EGM08`/`EGM96`; any
other grid string succeeds with a descriptive unknown-name `vref` when the
file exists in the pyproj data directory, and raises `ValueError` otherwise. -/
theorem set_vref_grid_priority (st : DEMState) (name : Option String) (g : String)
    (fileExists : String → Bool) :
    (g = "us_nga_egm08_25.tif" →
      set_vref st name (some g) fileExists =
        ({ st with vref := some "EGM08", vref_grid := some g }, none)) ∧
    (g = "us_nga_egm96_15.tif" →
      set_vref st name (some g) fileExists =
        ({ st with vref := some "EGM96", vref_grid := some g }, none)) ∧
    (g ≠ "us_nga_egm08_25.tif" → g ≠ "us_nga_egm96_15.tif" → fileExists g = true →
      set_vref st name (some g) fileExists =
        ({ st with vref := some ("Unknown vertical reference name from: " ++ g),
                   vref_grid := some g }, none)) ∧
    (g ≠ "us_nga_egm08_25.tif" → g ≠ "us_nga_egm96_15.tif" → fileExists g = false →
      set_vref st name (some g) fileExists =
        (st, some (.valueError grid_not_found_msg))) := by
  refine ⟨?_, ?_, ?_, ?_⟩ <;> intros <;> simp [set_vref, *]

/-- Witness for C2 at a concrete input: the well-known EGM08 grid wins even
though a conflicting name is supplied, and the state ends with that grid. -/
theorem set_vref_grid_priority_witness :
    set_vref sample_st (some "WGS84") (some "us_nga_egm08_25.tif") (fun _ => false) =
      ({ sample_st with vref := some "EGM08",
                        vref_grid := some "us_nga_egm08_25.tif" }, none) :=
  (set_vref_grid_priority sample_st (some "WGS84") "us_nga_egm08_25.tif"
    (fun _ => false)).1 rfl

/-- C3: with no grid supplied and a string name, `"WGS84"`, `"EGM08"` and
`"EGM96"` map to their fixed `(vref, vref_grid)` pairs, and any other name
raises `ValueError` listing the allowed names. -/
theorem set_vref_name_cases (st : DEMState) (n : String) (fileExists : String → Bool) :
    (n = "WGS84" →
      set_vref st (some n) none fileExists =
        ({ st with vref_grid := none, vref := some "WGS84" }, none)) ∧
    (n = "EGM08" →
      set_vref st (some n) none fileExists =
        ({ st with vref_grid := some "us_nga_egm08_25.tif", vref := some "EGM08" }, none)) ∧
    (n = "EGM96" →
      set_vref st (some n) none fileExists =
        ({ st with vref_grid := some "us_nga_egm96_15.tif", vref := some "EGM96" }, none)) ∧
    (n ≠ "WGS84" → n ≠ "EGM08" → n ≠ "EGM96" →
      set_vref st (some n) none fileExists =
        (st, some (.valueError invalid_name_msg))) := by
  refine ⟨?_, ?_, ?_, ?_⟩ <;> intros <;> simp [set_vref, *]

/-- Witness for C3 at a concrete input: `set_vref("EGM96")` yields the EGM96
name together with the fixed 15-arcminute grid filename. -/
theorem set_vref_name_cases_witness :
    set_vref sample_st (some "EGM96") none (fun _ => false) =
      ({ sample_st with vref_grid := some "us_nga_egm96_15.tif",
                        vref := some "EGM96" }, none) :=
  (set_vref_name_cases sample_st "EGM96" (fun _ => false)).2.2.1 rfl

/-- Counterexample to C4 as stated: with `vref_grid = ""` (a string for
`isinstance`) and no name, the grid branch is taken; `os.path.join` of the
data directory with `""` is the data directory itself, which exists in any
working installation (modelled by `fileExists "" = true`), so the call
succeeds with an unknown-name `vref` instead of raising `ValueError`. -/
theorem set_vref_empty_grid_counterexample :
    set_vref sample_st none (some "") (fun g => g == "") =
      ({ sample_st with vref := some "Unknown vertical reference name from: ",
                        vref_grid := some "" }, none) := by
  rfl

/-- C4 (amended): when neither argument is a string (both absent) the call
raises `ValueError`; an empty `vref_name` with no grid raises the
invalid-name `ValueError`; but an empty `vref_grid` string takes the grid
branch, succeeding whenever the empty filename joined to the data directory
exists and raising the grid-not-found `ValueError` only when it does not. -/
theorem set_vref_no_usable_arg (st : DEMState) (fileExists : String → Bool) :
    (set_vref st none none fileExists = (st, some (.valueError no_arg_msg))) ∧
    (set_vref st (some "") none fileExists =
      (st, some (.valueError invalid_name_msg))) ∧
    (fileExists "" = true → ∀ name, (set_vref st name (some "") fileExists).2 = none) ∧
    (fileExists "" = false → ∀ name,
      (set_vref st name (some "") fileExists).2 =
        some (.valueError grid_not_found_msg)) := by
  refine ⟨rfl, by simp [set_vref], ?_, ?_⟩ <;> intro h name <;> simp [set_vref, h]

/-- Witness for C4 (amended) at a concrete input: with a filesystem in which
the data directory exists, the empty-grid call does not raise. -/
theorem set_vref_no_usable_arg_witness :
    (set_vref sample_st none (some "") (fun _ => true)).2 = none :=
  (set_vref_no_usable_arg sample_st (fun _ => true)).2.2.1 rfl none

/-- C10: `set_vref` is atomic on error — whenever the call raises, the
returned state (the object state at the moment of the raise) is exactly the
initial state: no attribute was mutated before the error. -/
theorem set_vref_atomic (st : DEMState) (name grid : Option String)
    (fileExists : String → Bool) (e : PyError)
    (h : (set_vref st name grid fileExists).2 = some e) :
    (set_vref st name grid fileExists).1 = st := by
  rcases grid with _ | g
  · rcases name with _ | n
    · rfl
    · simp only [set_vref] at h ⊢
      split_ifs at h ⊢ <;> simp_all
  · simp only [set_vref] at h ⊢
    split_ifs at h ⊢ <;> simp_all

/-- Witness for C10 at a concrete input: the no-argument call raises and
leaves the state unchanged. -/
theorem set_vref_atomic_witness :
    (set_vref sample_st none none (fun _ => true)).1 = sample_st :=
  set_vref_atomic sample_st none none (fun _ => true) (.valueError no_arg_msg) rfl

/-- C5: the `ccrs` property returns the horizontal CRS unchanged when
`vref = "WGS84"` (taking precedence over any grid); otherwise, with a grid
set, it builds the compound CRS from the horizontal EPSG code and the grid,
raising when the horizontal CRS has no EPSG code; otherwise it returns
`None`. -/
theorem ccrs_cases (st : DEMState) :
    (st.vref = some "WGS84" →
      ccrs st = .ok (some (.horizontal st.crs),
        { st with ccrs_cache := some (.horizontal st.crs) })) ∧
    (st.vref ≠ some "WGS84" → ∀ g e, st.vref_grid = some g → st.crs.epsg = some e →
      ccrs st = .ok (some (.compound e g),
        { st with ccrs_cache := some (.compound e g) })) ∧
    (st.vref ≠ some "WGS84" → ∀ g, st.vref_grid = some g → st.crs.epsg = none →
      ccrs st = .error (.typeError "int() argument cannot be NoneType")) ∧
    (st.vref ≠ some "WGS84" → st.vref_grid = none →
      ccrs st = .ok (none, { st with ccrs_cache := none })) := by
  refine ⟨?_, ?_, ?_, ?_⟩ <;> intros <;> simp_all [ccrs, ccrs_compute]

/-- Witness for C5 at a concrete input: on a WGS84 DEM the property returns
the horizontal CRS unchanged. -/
theorem ccrs_cases_witness :
    ccrs sample_st = .ok (some (.horizontal sample_st.crs),
      { sample_st with ccrs_cache := some (.horizontal sample_st.crs) }) :=
  (ccrs_cases sample_st).1 rfl

/-- Helper: the only error `ccrs` can produce is the `TypeError` from
`int(crs.to_epsg())` on a CRS with no EPSG code. -/
theorem ccrs_error_shape (st : DEMState) (e : PyError) (h : ccrs st = .error e) :
    e = .typeError "int() argument cannot be NoneType" := by
  unfold ccrs ccrs_compute at h
  split_ifs at h
  rcases hg : st.vref_grid with _ | g <;> rw [hg] at h
  · simp at h
  · rcases he : st.crs.epsg with _ | v <;> rw [he] at h <;> simp_all

/-- Helper: every error raised by `set_vref` is a `ValueError` with one of
the three `set_vref` messages. -/
theorem set_vref_error_shape (st : DEMState) (name grid : Option String)
    (fileExists : String → Bool) (e : PyError)
    (h : (set_vref st name grid fileExists).2 = some e) :
    e = .valueError invalid_name_msg ∨ e = .valueError grid_not_found_msg ∨
      e = .valueError no_arg_msg := by
  rcases grid with _ | g
  · rcases name with _ | n
    · simp only [set_vref] at h
      simp_all
    · simp only [set_vref] at h
      split_ifs at h <;> simp_all
  · simp only [set_vref] at h
    split_ifs at h <;> simp_all

/-- Helper: `set_vref` never changes the elevation data. -/
theorem set_vref_data_eq (st : DEMState) (name grid : Option String)
    (fileExists : String → Bool) :
    (set_vref st name grid fileExists).1.data = st.data := by
  rcases grid with _ | g
  · rcases name with _ | n
    · rfl
    · simp only [set_vref]
      split_ifs <;> rfl
  · simp only [set_vref]
    split_ifs <;> rfl

/-- C6: `to_vref` on a DEM whose `vref` and `vref_grid` are both absent
raises the no-source-vref `ValueError` with the state untouched — before any
compound-CRS computation, mutation, or transform (the result does not depend
on the filesystem or transformer environments); when at least one of the two
is set, the precondition check passes: the call never produces that error. -/
theorem to_vref_requires_source_vref (st : DEMState) (name : String)
    (grid : Option String) (fileExists : String → Bool)
    (transform : Option CCRS → Option CCRS → List Int → Except String (List Int)) :
    (st.vref = none ∧ st.vref_grid = none →
      to_vref st name grid fileExists transform = (st, some (.valueError no_vref_msg))) ∧
    (¬(st.vref = none ∧ st.vref_grid = none) →
      (to_vref st name grid fileExists transform).2 ≠ some (.valueError no_vref_msg)) := by
  constructor
  · intro h
    simp [to_vref, h.1, h.2]
  · intro h
    simp only [to_vref, if_neg h]
    rcases hc : ccrs st with e | ⟨c0, st1⟩
    · rcases ccrs_error_shape st e hc
      simp
    · dsimp only
      rcases hs : set_vref st1 (some name) grid fileExists with ⟨st2, oe⟩
      rcases oe with _ | e
      · dsimp only
        rcases hc2 : ccrs st2 with e | ⟨c1, st3⟩
        · rcases ccrs_error_shape st2 e hc2
          simp
        · dsimp only
          rcases ht : transform c0 c1 st3.data with m | zz <;> simp
      · have h2 : (set_vref st1 (some name) grid fileExists).2 = some e := by
          rw [hs]
        rcases set_vref_error_shape st1 (some name) grid fileExists e h2 with
          rfl | rfl | rfl <;> simp <;> decide

/-- Witness for C6 at a concrete input: a DEM with no vertical reference at
all makes `to_vref` fail with the no-source-vref `ValueError`, state
unchanged. -/
theorem to_vref_requires_source_vref_witness :
    to_vref { sample_st with vref := none, vref_grid := none } "EGM96" none
        (fun _ => true) (fun _ _ d => .ok d) =
      ({ sample_st with vref := none, vref_grid := none },
        some (.valueError no_vref_msg)) :=
  (to_vref_requires_source_vref { sample_st with vref := none, vref_grid := none }
    "EGM96" none (fun _ => true) (fun _ _ d => .ok d)).1 ⟨rfl, rfl⟩

/-- C7: `to_vref` is non-atomic — if the destination-setting step succeeds
(`set_vref` returns `st2` with no error) but a later step fails (destination
compound-CRS construction, or the external transform), the operation raises
while the final state already carries the destination `vref`/`vref_grid` of
`st2` and the elevation data is still the original, untransformed data. -/
theorem to_vref_non_atomic (st : DEMState) (name : String) (grid : Option String)
    (fileExists : String → Bool)
    (transform : Option CCRS → Option CCRS → List Int → Except String (List Int))
    (hpre : ¬(st.vref = none ∧ st.vref_grid = none))
    (c0 : Option CCRS) (hinit : ccrs_compute st = .ok c0)
    (st2 : DEMState)
    (hset : set_vref { st with ccrs_cache := c0 } (some name) grid fileExists =
      (st2, none))
    (hfail : (∃ e, ccrs_compute st2 = .error e) ∨
      ∃ c1 m, ccrs_compute st2 = .ok c1 ∧ transform c0 c1 st2.data = .error m) :
    (∃ e, (to_vref st name grid fileExists transform).2 = some e) ∧
    (to_vref st name grid fileExists transform).1.vref = st2.vref ∧
    (to_vref st name grid fileExists transform).1.vref_grid = st2.vref_grid ∧
    (to_vref st name grid fileExists transform).1.data = st.data := by
  have hdata : st2.data = st.data := by
    have := set_vref_data_eq { st with ccrs_cache := c0 } (some name) grid fileExists
    rw [hset] at this
    exact this
  have hc : ccrs st = .ok (c0, { st with ccrs_cache := c0 }) := by
    simp [ccrs, hinit]
  simp only [to_vref, if_neg hpre]
  rw [hc]
  dsimp only
  rw [hset]
  dsimp only
  rcases hfail with ⟨e, hf⟩ | ⟨c1, m, hok, ht⟩
  · have hc2 : ccrs st2 = .error e := by simp [ccrs, hf]
    rw [hc2]
    exact ⟨⟨e, rfl⟩, rfl, rfl, hdata⟩
  · have hc2 : ccrs st2 = .ok (c1, { st2 with ccrs_cache := c1 }) := by
      simp [ccrs, hok]
    rw [hc2]
    dsimp only
    rw [ht]
    exact ⟨⟨.projError m, rfl⟩, rfl, rfl, hdata⟩

/-- Witness for C7 at a concrete input: converting a WGS84 DEM towards EGM96
with a failing external transformer raises, yet leaves the state already
switched to `(EGM96, us_nga_egm96_15.tif)` with the original data. -/
theorem to_vref_non_atomic_witness :
    (∃ e, (to_vref sample_st "EGM96" none (fun _ => true)
      (fun _ _ _ => .error "transform failed")).2 = some e) ∧
    (to_vref sample_st "EGM96" none (fun _ => true)
      (fun _ _ _ => .error "transform failed")).1.vref = some "EGM96" ∧
    (to_vref sample_st "EGM96" none (fun _ => true)
      (fun _ _ _ => .error "transform failed")).1.vref_grid =
        some "us_nga_egm96_15.tif" ∧
    (to_vref sample_st "EGM96" none (fun _ => true)
      (fun _ _ _ => .error "transform failed")).1.data = sample_st.data :=
  to_vref_non_atomic sample_st "EGM96" none (fun _ => true)
    (fun _ _ _ => .error "transform failed") (by decide)
    (some (.horizontal sample_st.crs)) rfl
    { sample_st with ccrs_cache := some (.horizontal sample_st.crs),
                     vref_grid := some "us_nga_egm96_15.tif", vref := some "EGM96" }
    rfl
    (Or.inr ⟨some (.compound 4326 "us_nga_egm96_15.tif"), "transform failed",
      rfl, rfl⟩)

/-- C8: at non-aliased construction, when the product resolves to a vertical
reference and the caller supplied no `vref_name`, the resolved value is
adopted; when it resolves and the caller supplied one, the caller's value is
kept; when the product is absent or does not resolve, `vref` is exactly the
caller's input. -/
theorem DEM_init_vref_inference (loaded : LoadedRaster)
    (vref_name vref_grid : Option String) (st : DEMState)
    (hok : DEM_init loaded vref_name vref_grid = .ok st) :
    (∀ p v, loaded.product = some p → parse_vref_from_product p = some v →
      vref_name = none → st.vref = some v) ∧
    (∀ p v, loaded.product = some p → parse_vref_from_product p = some v →
      vref_name ≠ none → st.vref = vref_name) ∧
    (loaded.product = none → st.vref = vref_name) ∧
    (∀ p, loaded.product = some p → parse_vref_from_product p = none →
      st.vref = vref_name) := by
  unfold DEM_init at hok
  split_ifs at hok
  rw [Except.ok.injEq] at hok
  subst hok
  refine ⟨?_, ?_, ?_, ?_⟩
  · intro p v hp hv hn
    simp [parse_vref_from_fn, hp, hv, hn]
  · intro p v hp hv hn
    rcases vref_name with _ | u
    · exact absurd rfl hn
    · simp [parse_vref_from_fn, hp, hv]
  · intro hp
    simp [parse_vref_from_fn, hp]
  · intro p hp hv
    rcases vref_name with _ | u <;> simp [parse_vref_from_fn, hp, hv]

/-- A concrete loaded raster whose product is COPDEM, used by witnesses. -/
def sample_loaded : LoadedRaster :=
  { data := [1]
    crs := { wkt := "EPSG:4326", epsg := some 4326 }
    product := some "COPDEM"
    indexes := some [1] }

/-- Witness for C8 at a concrete input: loading a COPDEM product with no
user-supplied `vref` adopts the resolved EGM08. -/
theorem DEM_init_vref_inference_witness :
    ({ vref := some "EGM08", vref_grid := none, ccrs_cache := none,
       crs := { wkt := "EPSG:4326", epsg := some 4326 }, data := [1],
       product := some "COPDEM", indexes := some [1] } : DEMState).vref =
      some "EGM08" :=
  (DEM_init_vref_inference sample_loaded none none
    { vref := some "EGM08", vref_grid := none, ccrs_cache := none,
      crs := { wkt := "EPSG:4326", epsg := some 4326 }, data := [1],
      product := some "COPDEM", indexes := some [1] } rfl).1
    "COPDEM" "EGM08" rfl rfl rfl

/-- C9: construction from a non-DEM source fails with the exact message
"DEM rasters should be composed of one band only" whenever the loaded raster
reports more than one band, and passes the check for single-band sources. -/
theorem DEM_init_band_check (loaded : LoadedRaster)
    (vref_name vref_grid : Option String) :
    (∀ idx, loaded.indexes = some idx → 1 < idx.length →
      DEM_init loaded vref_name vref_grid = .error (.valueError multiband_msg)) ∧
    (∀ idx, loaded.indexes = some idx → idx.length ≤ 1 →
      ∃ st, DEM_init loaded vref_name vref_grid = .ok st) := by
  constructor
  · intro idx hidx hlen
    simp [DEM_init, multiband, hidx, hlen]
  · intro idx hidx hlen
    refine ⟨parse_vref_from_fn
      { vref := vref_name, vref_grid := vref_grid, ccrs_cache := none,
        crs := loaded.crs, data := loaded.data, product := loaded.product,
        indexes := loaded.indexes }, ?_⟩
    simp [DEM_init, multiband, hidx, Nat.not_lt.mpr hlen]

/-- Witness for C9 at a concrete input: a two-band raster is rejected with
the exact multiband message. -/
theorem DEM_init_band_check_witness :
    DEM_init { sample_loaded with indexes := some [1, 2] } none none =
      .error (.valueError multiband_msg) :=
  (DEM_init_band_check { sample_loaded with indexes := some [1, 2] } none none).1
    [1, 2] rfl (by decide)
